import Mathlib

/-!
Shallow embedding of `src/utils/call_llm.py`.

The module has two functions:

* `call_llm prompt use_cache provider` — logs the prompt, optionally
  consults an on-disk JSON cache (`llm_cache.json`), and on a miss
  dispatches on the provider string: `"azure"` performs the backend
  request, `"gemini"` raises `NotImplementedError`, anything else raises
  `ValueError`.
* `update_cache prompt response_text` — reloads the cache from disk,
  overwrites the entry for `prompt`, writes the whole mapping back, and
  swallows every failure.

The embedding makes the implicit state and effects explicit:

* the on-disk cache file is a `CacheFile` (missing, unparseable, or a
  parsed JSON object modelled as an association list);
* the possibility of an OS-level write failure (disk full, permissions)
  is a `writeFault` field of the `World`;
* every observable side effect (log write, cache-file read, cache-file
  write, network call to the backend) is recorded as an `Event`;
* the Azure backend is a parameter `backend : String → BackendResult`
  returning either a transport/API error or the first completion's
  `message.content`, which in the OpenAI SDK may be `null` (hence
  `Option String`).
-/

/-- On-disk state of `llm_cache.json`: absent, present but not valid
JSON, or a parsed JSON object (an association list of string pairs). -/
inductive CacheFile where
  | missing : CacheFile
  | corrupt : CacheFile
  | valid : List (String × String) → CacheFile
deriving DecidableEq, Repr

/-- Mutable state visible to the module: the cache file and whether the
next cache-file write will fail at the OS level (`some msg` carries the
error message of the failure, e.g. a permission error). -/
structure World where
  file : CacheFile
  writeFault : Option String
deriving DecidableEq, Repr

/-- An observable side effect of one call. -/
inductive Event where
  | logWrite : String → Event
  | cacheRead : Event
  | cacheWrite : Event
  | backendCall : String → Event
deriving DecidableEq, Repr

/-- Outcome of the Azure chat-completions request:
a raised exception, or `response.choices[0].message.content`
(which the SDK types as `Optional[str]`). -/
inductive BackendResult where
  | error : String → BackendResult
  | ok : Option String → BackendResult
deriving DecidableEq, Repr

/-- The exceptions `call_llm` can raise. -/
inductive LLMError where
  | azureError : String → LLMError
  | notImplemented : String → LLMError
  | valueError : String → LLMError
deriving DecidableEq, Repr

/-- The message carried by an `LLMError`. -/
def LLMError.msg : LLMError → String
  | LLMError.azureError s => s
  | LLMError.notImplemented s => s
  | LLMError.valueError s => s

/-- Python `dict` lookup on the association list (first match wins;
a JSON-parsed object has unique keys anyway). -/
def lookupKV : List (String × String) → String → Option String
  | [], _ => none
  | (k, v) :: rest, key => if k = key then some v else lookupKV rest key

/-- Python `cache[prompt] = response_text`: replace the value of an
existing key in place, otherwise append the new pair. -/
def insertKV : List (String × String) → String → String → List (String × String)
  | [], k, v => [(k, v)]
  | (k', v') :: rest, k, v =>
      if k' = k then (k, v) :: rest else (k', v') :: insertKV rest k v

/-- `cache = {}` then `if os.path.exists: try: cache = json.load(f)
except: ...` — a missing or unparseable file yields the empty mapping. -/
def loadCache : CacheFile → List (String × String)
  | CacheFile.missing => []
  | CacheFile.corrupt => []
  | CacheFile.valid m => m

/-- Effects of the cache load in `call_llm`: no read when the file is
absent; a read plus the `logger.warning` when parsing fails. -/
def readEventsCall : CacheFile → List Event
  | CacheFile.missing => []
  | CacheFile.corrupt =>
      [Event.cacheRead,
       Event.logWrite ("Failed to load cache, starting with empty cache")]
  | CacheFile.valid _ => [Event.cacheRead]

/-- Effects of the cache load in `update_cache` (its inner
`except: pass` logs nothing). -/
def readEventsUpdate : CacheFile → List Event
  | CacheFile.missing => []
  | CacheFile.corrupt => [Event.cacheRead]
  | CacheFile.valid _ => [Event.cacheRead]

/-- `update_cache(prompt, response_text)`: reload the cache treating a
missing or corrupt file as empty, bind `prompt` to `response_text`, and
write the whole mapping back; any failure is caught, logged via
`logger.error`, and swallowed, so the function always returns. -/
def update_cache (w : World) (prompt response_text : String) :
    World × List Event :=
  let cache := loadCache w.file
  let cache2 := insertKV cache prompt response_text
  match w.writeFault with
  | some e =>
      (w, readEventsUpdate w.file ++
        [Event.logWrite ("Failed to save cache: " ++ e)])
  | none =>
      (⟨CacheFile.valid cache2, none⟩,
        readEventsUpdate w.file ++ [Event.cacheWrite])

/-- Result of one `call_llm` invocation: the final world, the trace of
side effects in order, and the returned string or raised exception. -/
structure CallResult where
  world : World
  events : List Event
  result : Except LLMError String
deriving Repr

/-- The `TypeError` message Python produces for `None[:100]` when the
completion's `message.content` is `null`. -/
def noneTypeMsg : String := "'NoneType' object is not subscriptable"

/-- The provider dispatch at the bottom of `call_llm` (the code after
the cache check): `"azure"` performs exactly one backend request and on
success optionally updates the cache; `"gemini"` warns and raises
`NotImplementedError`; anything else raises `ValueError`. -/
def dispatchProvider (w : World) (evs : List Event) (prompt : String)
    (use_cache : Bool) (provider : String)
    (backend : String → BackendResult) : CallResult :=
  if provider = "azure" then
    match backend prompt with
    | BackendResult.error e =>
        ⟨w, evs ++ [Event.backendCall prompt,
            Event.logWrite ("Azure OpenAI error: " ++ e)],
          Except.error (LLMError.azureError ("Azure OpenAI error: " ++ e))⟩
    | BackendResult.ok none =>
        ⟨w, evs ++ [Event.backendCall prompt,
            Event.logWrite ("Azure OpenAI error: " ++ noneTypeMsg)],
          Except.error (LLMError.azureError
            ("Azure OpenAI error: " ++ noneTypeMsg))⟩
    | BackendResult.ok (some t) =>
        let evResp := [Event.backendCall prompt,
          Event.logWrite ("AZURE RESPONSE: " ++ t.take 100 ++ "...")]
        if use_cache then
          let u := update_cache w prompt t
          ⟨u.1, evs ++ evResp ++ u.2, Except.ok t⟩
        else
          ⟨w, evs ++ evResp, Except.ok t⟩
  else if provider = "gemini" then
    ⟨w, evs ++ [Event.logWrite
        ("Gemini support is currently disabled due to authentication issues.")],
      Except.error (LLMError.notImplemented
        ("Gemini support is currently disabled. Please use 'azure' provider."))⟩
  else
    ⟨w, evs,
      Except.error (LLMError.valueError ("Unsupported provider: " ++ provider))⟩

/-- `call_llm(prompt, use_cache, provider)`: log the prompt; if caching
is enabled, load the cache and return the cached value on a hit (logging
a 100-character preview); otherwise fall through to the provider
dispatch. -/
def call_llm (w : World) (prompt : String) (use_cache : Bool)
    (provider : String) (backend : String → BackendResult) : CallResult :=
  let ev0 : List Event := [Event.logWrite ("PROMPT: " ++ prompt)]
  if use_cache then
    match lookupKV (loadCache w.file) prompt with
    | some v =>
        ⟨w, ev0 ++ readEventsCall w.file ++
            [Event.logWrite ("CACHE HIT: " ++ v.take 100 ++ "...")],
          Except.ok v⟩
    | none =>
        dispatchProvider w (ev0 ++ readEventsCall w.file) prompt use_cache
          provider backend
  else
    dispatchProvider w ev0 prompt use_cache provider backend

/-- Whether an event is a backend/network call. -/
def isBackendCall : Event → Bool
  | Event.backendCall _ => true
  | _ => false

/-- Number of backend/network calls in a trace. -/
def backendCount (evs : List Event) : Nat :=
  (evs.filter isBackendCall).length

/-- Whether an event is a cache-file write. -/
def isCacheWrite : Event → Bool
  | Event.cacheWrite => true
  | _ => false

/-- Number of cache-file writes in a trace. -/
def cacheWriteCount (evs : List Event) : Nat :=
  (evs.filter isCacheWrite).length

/-- Whether the raised error is one of the two provider-validation
errors (`NotImplementedError` or `ValueError`), as opposed to a
backend failure. -/
def isProviderError : Except LLMError String → Bool
  | Except.error (LLMError.notImplemented _) => true
  | Except.error (LLMError.valueError _) => true
  | _ => false

/-! ### Association-list lemmas -/

/-- Number of entries in the mapping whose key is `k`. -/
def countKey (l : List (String × String)) (k : String) : Nat :=
  (l.filter (fun p => decide (p.1 = k))).length

@[simp] theorem isBackendCall_logWrite (s : String) :
    isBackendCall (Event.logWrite s) = false := rfl

@[simp] theorem isBackendCall_cacheRead :
    isBackendCall Event.cacheRead = false := rfl

@[simp] theorem isBackendCall_cacheWrite :
    isBackendCall Event.cacheWrite = false := rfl

@[simp] theorem isBackendCall_backendCall (s : String) :
    isBackendCall (Event.backendCall s) = true := rfl

@[simp] theorem isCacheWrite_logWrite (s : String) :
    isCacheWrite (Event.logWrite s) = false := rfl

@[simp] theorem isCacheWrite_cacheRead :
    isCacheWrite Event.cacheRead = false := rfl

@[simp] theorem isCacheWrite_cacheWrite :
    isCacheWrite Event.cacheWrite = true := rfl

@[simp] theorem isCacheWrite_backendCall (s : String) :
    isCacheWrite (Event.backendCall s) = false := rfl

@[simp] theorem backendCount_append (l1 l2 : List Event) :
    backendCount (l1 ++ l2) = backendCount l1 + backendCount l2 := by
  simp [backendCount, List.filter_append]

@[simp] theorem cacheWriteCount_append (l1 l2 : List Event) :
    cacheWriteCount (l1 ++ l2) = cacheWriteCount l1 + cacheWriteCount l2 := by
  simp [cacheWriteCount, List.filter_append]

theorem lookupKV_insertKV (l : List (String × String)) (k v k' : String) :
    lookupKV (insertKV l k v) k' = if k = k' then some v else lookupKV l k' := by
  induction l with
  | nil => simp [insertKV, lookupKV]
  | cons p rest ih =>
      obtain ⟨a, b⟩ := p
      by_cases h : a = k
      · subst h
        by_cases h2 : a = k' <;> simp [insertKV, lookupKV, h2]
      · by_cases h2 : a = k'
        · subst h2
          have h3 : ¬(k = a) := fun hh => h hh.symm
          simp [insertKV, lookupKV, h, h3]
        · simp [insertKV, lookupKV, h, h2, ih]

theorem lookupKV_eq_none (l : List (String × String)) (k : String) :
    lookupKV l k = none ↔ ∀ p ∈ l, p.1 ≠ k := by
  induction l with
  | nil => simp [lookupKV]
  | cons p rest ih =>
      obtain ⟨a, b⟩ := p
      by_cases h : a = k <;> simp [lookupKV, h, ih]

theorem insertKV_of_not_mem (l : List (String × String)) (k v : String)
    (h : lookupKV l k = none) : insertKV l k v = l ++ [(k, v)] := by
  induction l with
  | nil => simp [insertKV]
  | cons p rest ih =>
      obtain ⟨a, b⟩ := p
      simp only [lookupKV] at h
      by_cases h2 : a = k
      · simp [h2] at h
      · have h4 : lookupKV rest k = none := by simpa [h2] using h
        simp [insertKV, h2, ih h4]

theorem countKey_of_lookup_none (l : List (String × String)) (k : String)
    (h : lookupKV l k = none) : countKey l k = 0 := by
  rw [lookupKV_eq_none] at h
  simp only [countKey, List.length_eq_zero, List.filter_eq_nil_iff]
  intro p hp
  simpa using h p hp

theorem countKey_append_self (l : List (String × String)) (k v : String) :
    countKey (l ++ [(k, v)]) k = countKey l k + 1 := by
  simp [countKey, List.filter_append]

theorem mem_keys_insertKV (l : List (String × String)) (k v x : String) :
    x ∈ (insertKV l k v).map Prod.fst ↔ x = k ∨ x ∈ l.map Prod.fst := by
  induction l with
  | nil => simp [insertKV]
  | cons p rest ih =>
      obtain ⟨a, b⟩ := p
      by_cases h : a = k
      · subst h
        simp [insertKV]
      · simp only [insertKV, if_neg h, List.map_cons, List.mem_cons, ih]
        tauto

theorem nodup_keys_insertKV (l : List (String × String)) (k v : String)
    (h : (l.map Prod.fst).Nodup) : ((insertKV l k v).map Prod.fst).Nodup := by
  induction l with
  | nil => simp [insertKV]
  | cons p rest ih =>
      obtain ⟨a, b⟩ := p
      simp only [List.map_cons, List.nodup_cons] at h
      by_cases h2 : a = k
      · subst h2
        simp [insertKV, List.nodup_cons, h.1, h.2]
      · simp only [insertKV, if_neg h2, List.map_cons, List.nodup_cons]
        refine ⟨fun hx => ?_, ih h.2⟩
        rw [mem_keys_insertKV] at hx
        rcases hx with rfl | hx
        · exact h2 rfl
        · exact h.1 hx

/-! ### Unfolding lemmas for `call_llm` -/

@[simp] theorem backendCount_readEventsCall (f : CacheFile) :
    backendCount (readEventsCall f) = 0 := by
  cases f <;> simp [readEventsCall, backendCount, List.filter]

@[simp] theorem backendCount_readEventsUpdate (f : CacheFile) :
    backendCount (readEventsUpdate f) = 0 := by
  cases f <;> simp [readEventsUpdate, backendCount, List.filter]

@[simp] theorem cacheWriteCount_readEventsCall (f : CacheFile) :
    cacheWriteCount (readEventsCall f) = 0 := by
  cases f <;> simp [readEventsCall, cacheWriteCount, List.filter]

@[simp] theorem cacheWriteCount_readEventsUpdate (f : CacheFile) :
    cacheWriteCount (readEventsUpdate f) = 0 := by
  cases f <;> simp [readEventsUpdate, cacheWriteCount, List.filter]

theorem callLLM_hit (w : World) (prompt v provider : String)
    (backend : String → BackendResult)
    (h : lookupKV (loadCache w.file) prompt = some v) :
    call_llm w prompt true provider backend =
      ⟨w, [Event.logWrite ("PROMPT: " ++ prompt)] ++ readEventsCall w.file ++
          [Event.logWrite ("CACHE HIT: " ++ v.take 100 ++ "...")],
        Except.ok v⟩ := by
  simp [call_llm, h]

theorem callLLM_miss (w : World) (prompt provider : String)
    (backend : String → BackendResult)
    (h : lookupKV (loadCache w.file) prompt = none) :
    call_llm w prompt true provider backend =
      dispatchProvider w
        ([Event.logWrite ("PROMPT: " ++ prompt)] ++ readEventsCall w.file)
        prompt true provider backend := by
  simp [call_llm, h]

theorem callLLM_nocache (w : World) (prompt provider : String)
    (backend : String → BackendResult) :
    call_llm w prompt false provider backend =
      dispatchProvider w [Event.logWrite ("PROMPT: " ++ prompt)]
        prompt false provider backend := by
  simp [call_llm]

theorem dispatch_gemini (w : World) (evs : List Event) (prompt : String)
    (use_cache : Bool) (backend : String → BackendResult) :
    dispatchProvider w evs prompt use_cache ("gemini") backend =
      ⟨w, evs ++ [Event.logWrite
          ("Gemini support is currently disabled due to authentication issues.")],
        Except.error (LLMError.notImplemented
          ("Gemini support is currently disabled. Please use 'azure' provider."))⟩ := by
  simp [dispatchProvider]

theorem dispatch_other (w : World) (evs : List Event) (prompt : String)
    (use_cache : Bool) (provider : String) (backend : String → BackendResult)
    (h1 : provider ≠ ("azure")) (h2 : provider ≠ ("gemini")) :
    dispatchProvider w evs prompt use_cache provider backend =
      ⟨w, evs, Except.error (LLMError.valueError
        ("Unsupported provider: " ++ provider))⟩ := by
  simp [dispatchProvider, h1, h2]

theorem dispatch_azure_err (w : World) (evs : List Event) (prompt : String)
    (use_cache : Bool) (backend : String → BackendResult) (e : String)
    (hb : backend prompt = BackendResult.error e) :
    dispatchProvider w evs prompt use_cache ("azure") backend =
      ⟨w, evs ++ [Event.backendCall prompt,
          Event.logWrite ("Azure OpenAI error: " ++ e)],
        Except.error (LLMError.azureError ("Azure OpenAI error: " ++ e))⟩ := by
  simp [dispatchProvider, hb]

theorem dispatch_azure_null (w : World) (evs : List Event) (prompt : String)
    (use_cache : Bool) (backend : String → BackendResult)
    (hb : backend prompt = BackendResult.ok none) :
    dispatchProvider w evs prompt use_cache ("azure") backend =
      ⟨w, evs ++ [Event.backendCall prompt,
          Event.logWrite ("Azure OpenAI error: " ++ noneTypeMsg)],
        Except.error (LLMError.azureError
          ("Azure OpenAI error: " ++ noneTypeMsg))⟩ := by
  simp [dispatchProvider, hb]

theorem dispatch_azure_ok_cached (w : World) (evs : List Event) (prompt : String)
    (backend : String → BackendResult) (t : String)
    (hb : backend prompt = BackendResult.ok (some t)) :
    dispatchProvider w evs prompt true ("azure") backend =
      ⟨(update_cache w prompt t).1,
        evs ++ [Event.backendCall prompt,
          Event.logWrite ("AZURE RESPONSE: " ++ t.take 100 ++ "...")] ++
          (update_cache w prompt t).2,
        Except.ok t⟩ := by
  simp [dispatchProvider, hb]

theorem dispatch_azure_ok_nocache (w : World) (evs : List Event) (prompt : String)
    (backend : String → BackendResult) (t : String)
    (hb : backend prompt = BackendResult.ok (some t)) :
    dispatchProvider w evs prompt false ("azure") backend =
      ⟨w, evs ++ [Event.backendCall prompt,
          Event.logWrite ("AZURE RESPONSE: " ++ t.take 100 ++ "...")],
        Except.ok t⟩ := by
  simp [dispatchProvider, hb]

/-! ### Claims -/

/-- C1: for every prompt present as a key in the on-disk cache,
`call_llm` with caching enabled returns the cached value for that prompt
and makes zero backend/network calls, whatever the provider argument. -/
theorem c1_cache_hit_returns_cached (w : World) (prompt v provider : String)
    (backend : String → BackendResult)
    (h : lookupKV (loadCache w.file) prompt = some v) :
    (call_llm w prompt true provider backend).result = Except.ok v ∧
    backendCount (call_llm w prompt true provider backend).events = 0 := by
  rw [callLLM_hit w prompt v provider backend h]
  refine ⟨rfl, ?_⟩
  cases hf : w.file <;> simp [backendCount, readEventsCall, List.filter]

/-- Witness for C1: a cache file containing `hello ↦ world` makes
`call_llm` return `world` with no backend call. -/
theorem c1_witness :
    (call_llm ⟨CacheFile.valid [(("hello"), ("world"))], none⟩ ("hello") true
        ("azure") (fun _ => BackendResult.error ("net"))).result =
      Except.ok ("world") ∧
    backendCount (call_llm ⟨CacheFile.valid [(("hello"), ("world"))], none⟩
        ("hello") true ("azure")
        (fun _ => BackendResult.error ("net"))).events = 0 :=
  c1_cache_hit_returns_cached _ _ _ _ _ (by decide)

/-- C10: the cache lookup precedes provider validation. With caching
enabled, a cached prompt returns its cached value for every provider
string whatsoever; and for a provider other than `azure`, the
provider-validation error is raised exactly when the dispatch step is
reached, i.e. caching is disabled or the prompt misses the cache. -/
theorem c10_lookup_precedes_validation (w : World) (p provider : String)
    (use_cache : Bool) (backend : String → BackendResult) :
    (∀ v, use_cache = true → lookupKV (loadCache w.file) p = some v →
        (call_llm w p use_cache provider backend).result = Except.ok v) ∧
    (provider ≠ ("azure") →
      (isProviderError (call_llm w p use_cache provider backend).result = true ↔
        (use_cache = false ∨ lookupKV (loadCache w.file) p = none))) := by
  constructor
  · intro v hu hv
    subst hu
    rw [callLLM_hit w p v provider backend hv]
  · intro hp
    cases use_cache with
    | false =>
        rw [callLLM_nocache]
        by_cases hg : provider = ("gemini")
        · subst hg
          rw [dispatch_gemini]
          simp [isProviderError]
        · rw [dispatch_other _ _ _ _ _ _ hp hg]
          simp [isProviderError]
    | true =>
        cases hv : lookupKV (loadCache w.file) p with
        | some v =>
            rw [callLLM_hit w p v provider backend hv]
            simp [isProviderError]
        | none =>
            rw [callLLM_miss w p provider backend hv]
            by_cases hg : provider = ("gemini")
            · subst hg
              rw [dispatch_gemini]
              simp [isProviderError]
            · rw [dispatch_other _ _ _ _ _ _ hp hg]
              simp [isProviderError]

/-- Witness for C10: a cached prompt succeeds even under the `gemini`
provider, and an uncached prompt under `gemini` raises a provider
error. -/
theorem c10_witness :
    (call_llm ⟨CacheFile.valid [(("k"), ("v"))], none⟩ ("k") true
        ("gemini") (fun _ => BackendResult.error ("net"))).result =
      Except.ok ("v") ∧
    isProviderError (call_llm ⟨CacheFile.valid [(("k"), ("v"))], none⟩
        ("miss") true ("gemini")
        (fun _ => BackendResult.error ("net"))).result = true :=
  ⟨(c10_lookup_precedes_validation ⟨CacheFile.valid [(("k"), ("v"))], none⟩
      ("k") ("gemini") true (fun _ => BackendResult.error ("net"))).1
      ("v") rfl (by decide),
   ((c10_lookup_precedes_validation ⟨CacheFile.valid [(("k"), ("v"))], none⟩
      ("miss") ("gemini") true (fun _ => BackendResult.error ("net"))).2
      (by decide)).mpr (Or.inr (by decide))⟩

@[simp] theorem backendCount_nil : backendCount [] = 0 := rfl

@[simp] theorem backendCount_cons (e : Event) (l : List Event) :
    backendCount (e :: l) =
      (if isBackendCall e = true then 1 else 0) + backendCount l := by
  simp only [backendCount, List.filter_cons]
  split <;> simp [Nat.add_comm]

@[simp] theorem cacheWriteCount_nil : cacheWriteCount [] = 0 := rfl

@[simp] theorem cacheWriteCount_cons (e : Event) (l : List Event) :
    cacheWriteCount (e :: l) =
      (if isCacheWrite e = true then 1 else 0) + cacheWriteCount l := by
  simp only [cacheWriteCount, List.filter_cons]
  split <;> simp [Nat.add_comm]

@[simp] theorem backendCount_update_cache (w : World) (p t : String) :
    backendCount (update_cache w p t).2 = 0 := by
  cases hw : w.writeFault <;> simp [update_cache, hw]

/-- The returned value or exception of the provider dispatch does not
depend on the incoming world or on the event prefix. -/
theorem dispatch_result_indep (w1 w2 : World) (evs1 evs2 : List Event)
    (prompt : String) (use_cache : Bool) (provider : String)
    (backend : String → BackendResult) :
    (dispatchProvider w1 evs1 prompt use_cache provider backend).result =
      (dispatchProvider w2 evs2 prompt use_cache provider backend).result := by
  by_cases ha : provider = ("azure")
  · subst ha
    cases hb : backend prompt with
    | error e =>
        rw [dispatch_azure_err _ _ _ _ _ _ hb, dispatch_azure_err _ _ _ _ _ _ hb]
    | ok t =>
        cases t with
        | none =>
            rw [dispatch_azure_null _ _ _ _ _ hb, dispatch_azure_null _ _ _ _ _ hb]
        | some s =>
            cases use_cache with
            | true =>
                rw [dispatch_azure_ok_cached _ _ _ _ _ hb,
                  dispatch_azure_ok_cached _ _ _ _ _ hb]
            | false =>
                rw [dispatch_azure_ok_nocache _ _ _ _ _ hb,
                  dispatch_azure_ok_nocache _ _ _ _ _ hb]
  · by_cases hg : provider = ("gemini")
    · subst hg
      rw [dispatch_gemini, dispatch_gemini]
    · rw [dispatch_other _ _ _ _ _ _ ha hg, dispatch_other _ _ _ _ _ _ ha hg]

/-- The provider dispatch performs exactly one backend call when the
provider is `azure` and none otherwise. -/
theorem dispatch_backendCount (w : World) (evs : List Event) (prompt : String)
    (use_cache : Bool) (provider : String) (backend : String → BackendResult) :
    backendCount (dispatchProvider w evs prompt use_cache provider backend).events =
      backendCount evs + (if provider = ("azure") then 1 else 0) := by
  by_cases ha : provider = ("azure")
  · subst ha
    rw [if_pos rfl]
    cases hb : backend prompt with
    | error e =>
        rw [dispatch_azure_err _ _ _ _ _ _ hb]
        simp
    | ok t =>
        cases t with
        | none =>
            rw [dispatch_azure_null _ _ _ _ _ hb]
            simp
        | some s =>
            cases use_cache with
            | true =>
                rw [dispatch_azure_ok_cached _ _ _ _ _ hb]
                simp
            | false =>
                rw [dispatch_azure_ok_nocache _ _ _ _ _ hb]
                simp
  · rw [if_neg ha]
    by_cases hg : provider = ("gemini")
    · subst hg
      rw [dispatch_gemini]
      simp
    · rw [dispatch_other _ _ _ _ _ _ ha hg]
      simp

/-- C2 counterexample: with `hello ↦ world` on disk, the call
`call_llm "hello" true "gemini"` returns `world` instead of failing
(the cache hit precedes provider validation); and even an invocation
that does fail with the `gemini` error has performed I/O first (a
non-empty event trace: the prompt log, the cache read and the warning
log). -/
theorem c2_counterexample :
    (call_llm ⟨CacheFile.valid [(("hello"), ("world"))], none⟩ ("hello") true
        ("gemini") (fun _ => BackendResult.error ("net"))).result =
      Except.ok ("world") ∧
    (call_llm ⟨CacheFile.valid [(("hello"), ("world"))], none⟩ ("other") true
        ("gemini") (fun _ => BackendResult.error ("net"))).events ≠ [] :=
  ⟨rfl, by decide⟩

/-- C2 amended: whenever the call reaches the provider dispatch (caching
disabled, or the prompt not a cache hit), provider `gemini` fails with
the fixed `NotImplementedError` and performs no backend/network call and
no cache write (it does write log entries, and reads the cache first
when caching is enabled). -/
theorem c2_gemini_dispatch (w : World) (prompt : String) (use_cache : Bool)
    (backend : String → BackendResult)
    (h : use_cache = false ∨ lookupKV (loadCache w.file) prompt = none) :
    (call_llm w prompt use_cache ("gemini") backend).result =
      Except.error (LLMError.notImplemented
        ("Gemini support is currently disabled. Please use 'azure' provider.")) ∧
    backendCount (call_llm w prompt use_cache ("gemini") backend).events = 0 ∧
    cacheWriteCount (call_llm w prompt use_cache ("gemini") backend).events = 0 := by
  cases use_cache with
  | false =>
      rw [callLLM_nocache, dispatch_gemini]
      refine ⟨rfl, ?_, ?_⟩ <;> simp [isBackendCall, isCacheWrite]
  | true =>
      have hn : lookupKV (loadCache w.file) prompt = none := by
        rcases h with h | h
        · exact absurd h (by simp)
        · exact h
      rw [callLLM_miss _ _ _ _ hn, dispatch_gemini]
      refine ⟨rfl, ?_, ?_⟩ <;> simp [isBackendCall, isCacheWrite]

/-- Witness for the amended C2: with caching disabled, `gemini` raises
the fixed error and the trace has no backend call and no cache write. -/
theorem c2_witness :
    ((false : Bool) = false ∨
      lookupKV (loadCache (⟨CacheFile.missing, none⟩ : World).file) ("q") = none) ∧
    ((call_llm ⟨CacheFile.missing, none⟩ ("q") false ("gemini")
        (fun _ => BackendResult.ok (some ("r")))).result =
      Except.error (LLMError.notImplemented
        ("Gemini support is currently disabled. Please use 'azure' provider.")) ∧
    backendCount (call_llm ⟨CacheFile.missing, none⟩ ("q") false ("gemini")
        (fun _ => BackendResult.ok (some ("r")))).events = 0 ∧
    cacheWriteCount (call_llm ⟨CacheFile.missing, none⟩ ("q") false ("gemini")
        (fun _ => BackendResult.ok (some ("r")))).events = 0) :=
  ⟨Or.inl rfl,
    c2_gemini_dispatch ⟨CacheFile.missing, none⟩ ("q") false
      (fun _ => BackendResult.ok (some ("r"))) (Or.inl rfl)⟩

/-- C3 counterexample: with `a ↦ 1` on disk, the unrecognized provider
string is never validated on a cache hit — the call returns `1` instead
of failing; and an invocation that does fail with the `ValueError` has
already performed I/O (the prompt log entry precedes it). -/
theorem c3_counterexample :
    (call_llm ⟨CacheFile.valid [(("a"), ("1"))], none⟩ ("a") true
        ("unknown-provider") (fun _ => BackendResult.error ("net"))).result =
      Except.ok ("1") ∧
    (call_llm ⟨CacheFile.missing, none⟩ ("q") false ("unknown-provider")
        (fun _ => BackendResult.error ("net"))).events ≠ [] :=
  ⟨rfl, by decide⟩

/-- C3 amended: whenever the call reaches the provider dispatch (caching
disabled, or the prompt not a cache hit), a provider other than `azure`
and `gemini` fails with a `ValueError` whose message contains the bad
provider string verbatim, with no backend/network call and no cache
write (the prompt log entry, and on enabled caching the cache read, have
already happened). -/
theorem c3_unknown_provider (w : World) (prompt provider : String)
    (use_cache : Bool) (backend : String → BackendResult)
    (h1 : provider ≠ ("azure")) (h2 : provider ≠ ("gemini"))
    (h : use_cache = false ∨ lookupKV (loadCache w.file) prompt = none) :
    (call_llm w prompt use_cache provider backend).result =
      Except.error (LLMError.valueError
        ("Unsupported provider: " ++ provider)) ∧
    (∃ pre post, ("Unsupported provider: " ++ provider) =
      pre ++ provider ++ post) ∧
    backendCount (call_llm w prompt use_cache provider backend).events = 0 ∧
    cacheWriteCount (call_llm w prompt use_cache provider backend).events = 0 := by
  have hpre : ∃ pre post, ("Unsupported provider: " ++ provider) =
      pre ++ provider ++ post :=
    ⟨("Unsupported provider: "), (""), by simp⟩
  cases use_cache with
  | false =>
      rw [callLLM_nocache, dispatch_other _ _ _ _ _ _ h1 h2]
      refine ⟨rfl, hpre, ?_, ?_⟩ <;> simp [isBackendCall, isCacheWrite]
  | true =>
      have hn : lookupKV (loadCache w.file) prompt = none := by
        rcases h with h | h
        · exact absurd h (by simp)
        · exact h
      rw [callLLM_miss _ _ _ _ hn, dispatch_other _ _ _ _ _ _ h1 h2]
      refine ⟨rfl, hpre, ?_, ?_⟩ <;> simp [isBackendCall, isCacheWrite]

/-- Witness for the amended C3 at provider `frontier`. -/
theorem c3_witness :
    (call_llm ⟨CacheFile.missing, none⟩ ("q2") false ("frontier")
        (fun _ => BackendResult.ok (some ("r")))).result =
      Except.error (LLMError.valueError
        ("Unsupported provider: " ++ ("frontier"))) ∧
    (∃ pre post, ("Unsupported provider: " ++ ("frontier")) =
      pre ++ ("frontier") ++ post) ∧
    backendCount (call_llm ⟨CacheFile.missing, none⟩ ("q2") false ("frontier")
        (fun _ => BackendResult.ok (some ("r")))).events = 0 ∧
    cacheWriteCount (call_llm ⟨CacheFile.missing, none⟩ ("q2") false
        ("frontier") (fun _ => BackendResult.ok (some ("r")))).events = 0 :=
  c3_unknown_provider ⟨CacheFile.missing, none⟩ ("q2") ("frontier") false
    (fun _ => BackendResult.ok (some ("r"))) (by decide) (by decide)
    (Or.inl rfl)

/-- C4: with caching enabled and the cache file missing or unparseable,
`call_llm` does not fail on the cache read: its returned value or
exception, and its number of backend calls, are exactly those of the
same call against an empty cache (it falls through to the backend). -/
theorem c4_soft_fail (w : World) (prompt provider : String)
    (backend : String → BackendResult)
    (h : w.file = CacheFile.missing ∨ w.file = CacheFile.corrupt) :
    (call_llm w prompt true provider backend).result =
      (call_llm ⟨CacheFile.valid [], w.writeFault⟩ prompt true provider
        backend).result ∧
    backendCount (call_llm w prompt true provider backend).events =
      backendCount (call_llm ⟨CacheFile.valid [], w.writeFault⟩ prompt true
        provider backend).events := by
  have h0 : loadCache w.file = [] := by
    rcases h with h | h <;> rw [h] <;> rfl
  have h1 : lookupKV (loadCache w.file) prompt = none := by
    rw [h0]
    rfl
  have h2 : lookupKV
      (loadCache (⟨CacheFile.valid [], w.writeFault⟩ : World).file) prompt =
        none := rfl
  rw [callLLM_miss _ _ _ _ h1, callLLM_miss _ _ _ _ h2]
  constructor
  · exact dispatch_result_indep _ _ _ _ _ _ _ _
  · rw [dispatch_backendCount, dispatch_backendCount]
    rcases h with h | h <;> rw [h] <;> simp [readEventsCall, isBackendCall]

/-- Witness for C4: a corrupt cache file behaves like an empty one. -/
theorem c4_witness :
    ((⟨CacheFile.corrupt, none⟩ : World).file = CacheFile.missing ∨
      (⟨CacheFile.corrupt, none⟩ : World).file = CacheFile.corrupt) ∧
    ((call_llm ⟨CacheFile.corrupt, none⟩ ("p") true ("azure")
        (fun _ => BackendResult.ok (some ("r")))).result =
      (call_llm ⟨CacheFile.valid [],
          (⟨CacheFile.corrupt, none⟩ : World).writeFault⟩ ("p") true ("azure")
        (fun _ => BackendResult.ok (some ("r")))).result ∧
    backendCount (call_llm ⟨CacheFile.corrupt, none⟩ ("p") true ("azure")
        (fun _ => BackendResult.ok (some ("r")))).events =
      backendCount (call_llm ⟨CacheFile.valid [],
          (⟨CacheFile.corrupt, none⟩ : World).writeFault⟩ ("p") true ("azure")
        (fun _ => BackendResult.ok (some ("r")))).events) :=
  ⟨Or.inr rfl,
    c4_soft_fail ⟨CacheFile.corrupt, none⟩ ("p") ("azure")
      (fun _ => BackendResult.ok (some ("r"))) (Or.inr rfl)⟩

/-- C5: `update_cache` swallows every failure — under a write fault it
returns normally, leaves the world unchanged and only logs — and
consequently the value or exception `call_llm` produces is independent
of whether the cache write fails, for every prompt, cache setting and
provider. -/
theorem c5_cache_fault_swallowed (w : World) (prompt provider : String)
    (use_cache : Bool) (backend : String → BackendResult) :
    (call_llm w prompt use_cache provider backend).result =
      (call_llm ⟨w.file, none⟩ prompt use_cache provider backend).result ∧
    (∀ p r e, w.writeFault = some e →
      update_cache w p r =
        (w, readEventsUpdate w.file ++
          [Event.logWrite ("Failed to save cache: " ++ e)])) := by
  constructor
  · cases use_cache with
    | false =>
        rw [callLLM_nocache, callLLM_nocache]
        exact dispatch_result_indep _ _ _ _ _ _ _ _
    | true =>
        cases hv : lookupKV (loadCache w.file) prompt with
        | some v =>
            rw [callLLM_hit w prompt v provider backend hv,
              callLLM_hit ⟨w.file, none⟩ prompt v provider backend hv]
        | none =>
            rw [callLLM_miss w prompt provider backend hv,
              callLLM_miss ⟨w.file, none⟩ prompt provider backend hv]
            exact dispatch_result_indep _ _ _ _ _ _ _ _
  · intro p r e he
    simp [update_cache, he]

/-- Witness for C5: under a `disk full` write fault the successful
backend response is still returned, and `update_cache` only logs. -/
theorem c5_witness :
    ((call_llm ⟨CacheFile.missing, some ("disk full")⟩ ("p") true ("azure")
        (fun _ => BackendResult.ok (some ("r")))).result =
      (call_llm ⟨CacheFile.missing, none⟩ ("p") true ("azure")
        (fun _ => BackendResult.ok (some ("r")))).result) ∧
    update_cache ⟨CacheFile.missing, some ("disk full")⟩ ("p") ("r") =
      (⟨CacheFile.missing, some ("disk full")⟩,
        readEventsUpdate CacheFile.missing ++
          [Event.logWrite ("Failed to save cache: " ++ ("disk full"))]) :=
  ⟨(c5_cache_fault_swallowed ⟨CacheFile.missing, some ("disk full")⟩ ("p")
      ("azure") true (fun _ => BackendResult.ok (some ("r")))).1,
    (c5_cache_fault_swallowed ⟨CacheFile.missing, some ("disk full")⟩ ("p")
      ("azure") true (fun _ => BackendResult.ok (some ("r")))).2
      ("p") ("r") ("disk full") rfl⟩

/-- C6: when the write succeeds, `update_cache` leaves on disk exactly
the previous mapping (missing or corrupt file read as empty) with
`prompt` bound to `response_text`: the entry is inserted or overwritten,
every other key is unchanged, and key uniqueness is preserved. -/
theorem c6_update_cache_overwrites (w : World) (p r : String)
    (h : w.writeFault = none) :
    (update_cache w p r).1.file =
      CacheFile.valid (insertKV (loadCache w.file) p r) ∧
    (∀ k, lookupKV (insertKV (loadCache w.file) p r) k =
        if p = k then some r else lookupKV (loadCache w.file) k) ∧
    (((loadCache w.file).map Prod.fst).Nodup →
      ((insertKV (loadCache w.file) p r).map Prod.fst).Nodup) := by
  refine ⟨?_, fun k => lookupKV_insertKV _ _ _ _,
    fun hn => nodup_keys_insertKV _ _ _ hn⟩
  simp [update_cache, h]

/-- Witness for C6: overwriting `a` keeps `b` intact and last write
wins. -/
theorem c6_witness :
    (update_cache ⟨CacheFile.valid [(("a"), ("1")), (("b"), ("2"))], none⟩
        ("a") ("9")).1.file =
      CacheFile.valid [(("a"), ("9")), (("b"), ("2"))] ∧
    lookupKV (insertKV [(("a"), ("1")), (("b"), ("2"))] ("a") ("9")) ("b") =
      some ("2") := by
  have h1 := (c6_update_cache_overwrites
    ⟨CacheFile.valid [(("a"), ("1")), (("b"), ("2"))], none⟩ ("a") ("9")
    rfl).1
  have h2 := (c6_update_cache_overwrites
    ⟨CacheFile.valid [(("a"), ("1")), (("b"), ("2"))], none⟩ ("a") ("9")
    rfl).2.1 ("b")
  constructor
  · rw [h1]
    decide
  · have h3 : (if ("a" : String) = ("b") then some ("9")
        else lookupKV (loadCache
          (⟨CacheFile.valid [(("a"), ("1")), (("b"), ("2"))], none⟩ :
            World).file) ("b")) = some ("2") := by decide
    exact h2.trans h3

/-- C7: round trip. For a prompt not previously cached, caching enabled,
a successful backend response `r` and a healthy disk, `call_llm` returns
`r`; the cache file afterwards holds the old mapping plus exactly one
entry for the prompt, bound to `r`; reloading and looking the prompt up
reproduces `r`; and a subsequent cached call returns `r` with zero
backend calls, whatever its backend would answer. -/
theorem c7_round_trip (w : World) (p r : String)
    (backend backend2 : String → BackendResult)
    (hf : w.writeFault = none)
    (hm : lookupKV (loadCache w.file) p = none)
    (hb : backend p = BackendResult.ok (some r)) :
    (call_llm w p true ("azure") backend).result = Except.ok r ∧
    (call_llm w p true ("azure") backend).world =
      ⟨CacheFile.valid (loadCache w.file ++ [(p, r)]), none⟩ ∧
    countKey (loadCache w.file ++ [(p, r)]) p = 1 ∧
    lookupKV (loadCache w.file ++ [(p, r)]) p = some r ∧
    (call_llm (call_llm w p true ("azure") backend).world p true ("azure")
        backend2).result = Except.ok r ∧
    backendCount (call_llm (call_llm w p true ("azure") backend).world p true
        ("azure") backend2).events = 0 := by
  have hins : insertKV (loadCache w.file) p r = loadCache w.file ++ [(p, r)] :=
    insertKV_of_not_mem _ _ _ hm
  have hlook : lookupKV (loadCache w.file ++ [(p, r)]) p = some r := by
    rw [← hins, lookupKV_insertKV]
    simp
  have hcall : call_llm w p true ("azure") backend =
      ⟨(update_cache w p r).1,
        ([Event.logWrite ("PROMPT: " ++ p)] ++ readEventsCall w.file) ++
          [Event.backendCall p,
            Event.logWrite ("AZURE RESPONSE: " ++ r.take 100 ++ "...")] ++
          (update_cache w p r).2,
        Except.ok r⟩ := by
    rw [callLLM_miss _ _ _ _ hm, dispatch_azure_ok_cached _ _ _ _ _ hb]
  have hup : (update_cache w p r).1 =
      ⟨CacheFile.valid (loadCache w.file ++ [(p, r)]), none⟩ := by
    simp [update_cache, hf, hins]
  have hworld : (call_llm w p true ("azure") backend).world =
      ⟨CacheFile.valid (loadCache w.file ++ [(p, r)]), none⟩ := by
    rw [hcall]
    exact hup
  refine ⟨by rw [hcall], hworld, ?_, hlook, ?_, ?_⟩
  · rw [countKey_append_self, countKey_of_lookup_none _ _ hm]
  · rw [hworld, callLLM_hit ⟨CacheFile.valid (loadCache w.file ++ [(p, r)]),
      none⟩ p r ("azure") backend2 hlook]
  · rw [hworld, callLLM_hit ⟨CacheFile.valid (loadCache w.file ++ [(p, r)]),
      none⟩ p r ("azure") backend2 hlook]
    simp [readEventsCall, isBackendCall]

/-- Witness for C7 starting from an absent cache file. -/
theorem c7_witness :
    (call_llm ⟨CacheFile.missing, none⟩ ("p") true ("azure")
        (fun _ => BackendResult.ok (some ("resp")))).result =
      Except.ok ("resp") ∧
    (call_llm ⟨CacheFile.missing, none⟩ ("p") true ("azure")
        (fun _ => BackendResult.ok (some ("resp")))).world =
      ⟨CacheFile.valid (loadCache CacheFile.missing ++ [(("p"), ("resp"))]),
        none⟩ ∧
    countKey (loadCache CacheFile.missing ++ [(("p"), ("resp"))]) ("p") = 1 ∧
    lookupKV (loadCache CacheFile.missing ++ [(("p"), ("resp"))]) ("p") =
      some ("resp") ∧
    (call_llm (call_llm ⟨CacheFile.missing, none⟩ ("p") true ("azure")
        (fun _ => BackendResult.ok (some ("resp")))).world ("p") true ("azure")
        (fun _ => BackendResult.error ("net"))).result = Except.ok ("resp") ∧
    backendCount (call_llm (call_llm ⟨CacheFile.missing, none⟩ ("p") true
        ("azure") (fun _ => BackendResult.ok (some ("resp")))).world ("p") true
        ("azure") (fun _ => BackendResult.error ("net"))).events = 0 :=
  c7_round_trip ⟨CacheFile.missing, none⟩ ("p") ("resp")
    (fun _ => BackendResult.ok (some ("resp")))
    (fun _ => BackendResult.error ("net")) rfl rfl rfl

/-- C8: every `azure` invocation that is not a cache hit performs
exactly one backend call, and with caching disabled a second successive
call performs exactly one backend call again (no memoization across
calls, no retry). -/
theorem c8_exactly_one_backend_call (w : World) (p : String)
    (use_cache : Bool) (backend : String → BackendResult)
    (h : use_cache = false ∨ lookupKV (loadCache w.file) p = none) :
    backendCount (call_llm w p use_cache ("azure") backend).events = 1 ∧
    backendCount (call_llm (call_llm w p false ("azure") backend).world p
        false ("azure") backend).events = 1 := by
  constructor
  · cases use_cache with
    | false =>
        rw [callLLM_nocache, dispatch_backendCount]
        simp [isBackendCall]
    | true =>
        have hn : lookupKV (loadCache w.file) p = none := by
          rcases h with h | h
          · exact absurd h (by simp)
          · exact h
        rw [callLLM_miss _ _ _ _ hn, dispatch_backendCount]
        simp [isBackendCall]
  · rw [callLLM_nocache, dispatch_backendCount]
    simp [isBackendCall]

/-- Witness for C8 with caching disabled. -/
theorem c8_witness :
    ((false : Bool) = false ∨
      lookupKV (loadCache (⟨CacheFile.missing, none⟩ : World).file) ("p") =
        none) ∧
    (backendCount (call_llm ⟨CacheFile.missing, none⟩ ("p") false ("azure")
        (fun _ => BackendResult.ok (some ("resp")))).events = 1 ∧
    backendCount (call_llm (call_llm ⟨CacheFile.missing, none⟩ ("p") false
        ("azure") (fun _ => BackendResult.ok (some ("resp")))).world ("p")
        false ("azure")
        (fun _ => BackendResult.ok (some ("resp")))).events = 1) :=
  ⟨Or.inl rfl,
    c8_exactly_one_backend_call ⟨CacheFile.missing, none⟩ ("p") false
      (fun _ => BackendResult.ok (some ("resp"))) (Or.inl rfl)⟩

/-- C9: whenever `call_llm` under the `azure` provider returns a string,
that string is either the cached value for the prompt or exactly the
non-null `message.content` the backend produced; in particular, when the
backend yields a null content and the prompt is not cached, no string
can be returned — the call fails (the log statement's `None` slice
raises inside the `try`, so no placeholder is ever returned). -/
theorem c9_ok_result_source (w : World) (p : String) (use_cache : Bool)
    (backend : String → BackendResult) (s : String)
    (h : (call_llm w p use_cache ("azure") backend).result = Except.ok s) :
    (use_cache = true ∧ lookupKV (loadCache w.file) p = some s) ∨
      backend p = BackendResult.ok (some s) := by
  cases use_cache with
  | false =>
      rw [callLLM_nocache] at h
      right
      cases hb : backend p with
      | error e =>
          rw [dispatch_azure_err _ _ _ _ _ _ hb] at h
          exact absurd h (by simp)
      | ok t =>
          cases t with
          | none =>
              rw [dispatch_azure_null _ _ _ _ _ hb] at h
              exact absurd h (by simp)
          | some t =>
              rw [dispatch_azure_ok_nocache _ _ _ _ _ hb] at h
              simp at h
              subst h
              rfl
  | true =>
      cases hv : lookupKV (loadCache w.file) p with
      | some v =>
          rw [callLLM_hit _ _ _ _ _ hv] at h
          simp at h
          subst h
          exact Or.inl ⟨rfl, rfl⟩
      | none =>
          rw [callLLM_miss _ _ _ _ hv] at h
          right
          cases hb : backend p with
          | error e =>
              rw [dispatch_azure_err _ _ _ _ _ _ hb] at h
              exact absurd h (by simp)
          | ok t =>
              cases t with
              | none =>
                  rw [dispatch_azure_null _ _ _ _ _ hb] at h
                  exact absurd h (by simp)
              | some t =>
                  rw [dispatch_azure_ok_cached _ _ _ _ _ hb] at h
                  simp at h
                  subst h
                  rfl

/-- Witness for C9: the returned string is the backend's content. -/
theorem c9_witness :
    ((false : Bool) = true ∧
      lookupKV (loadCache (⟨CacheFile.missing, none⟩ : World).file) ("p") =
        some ("resp")) ∨
    (fun _ : String => BackendResult.ok (some ("resp"))) ("p") =
      BackendResult.ok (some ("resp")) :=
  c9_ok_result_source ⟨CacheFile.missing, none⟩ ("p") false
    (fun _ => BackendResult.ok (some ("resp"))) ("resp") rfl
